import Mathlib

/-!
Verification of the Instance Lock Manager (`InstanceLockMgr.cpp`).

The C++ subsystem is shallowly embedded: wall-clock instants are `Int`
seconds, broken-down local time is a `tm` record whose `tm_mday` is an
absolute day index (so `mktime` is plain linear arithmetic and the weekday
is `tm_mday % 7`), the two binding stores and the shared-record registry
are function maps, uint32 masks are `Nat` with explicit 32-bit complement,
and SQL emission is a list of `Stmt` values.  `ASSERT` failures are
modelled as `none` results.
-/

/-- `TransferAbortReason` values produced by `CanJoinInstanceLock`. -/
inductive TransferAbortReason where
  | TRANSFER_ABORT_NONE
  | TRANSFER_ABORT_ALREADY_COMPLETED_ENCOUNTER
  | TRANSFER_ABORT_LOCKED_TO_DIFFERENT_INSTANCE
  deriving DecidableEq, Repr

/-- `MapDifficultyEntry::ResetInterval` values switched on by `GetNextResetTime`. -/
inductive MapDifficultyResetInterval where
  | MAP_DIFFICULTY_RESET_ANYTIME
  | MAP_DIFFICULTY_RESET_DAILY
  | MAP_DIFFICULTY_RESET_WEEKLY
  deriving DecidableEq, Repr

/-- Broken-down local time as used by `GetNextResetTime`.  `tm_mday` is an
absolute day index rather than a day-of-month: `mktime` renormalises
`tm_mday` overflow, so the (day, hour, min, sec) quadruple with a linear
`mktime` is a faithful model of the arithmetic performed on the struct. -/
structure tm where
  tm_sec : Int
  tm_min : Int
  tm_hour : Int
  tm_mday : Int
  deriving DecidableEq, Repr

/-- `tm_wday`, kept consistent with `tm_mday` by `localtime`; the day index
is aligned so that weekday `w` means `tm_mday % 7 = w`. -/
def tm.tm_wday (t : tm) : Int := t.tm_mday % 7

/-- `mktime`: seconds since the (local) epoch of a broken-down time. -/
def mktime (t : tm) : Int :=
  t.tm_mday * 86400 + t.tm_hour * 3600 + t.tm_min * 60 + t.tm_sec

/-- The `ResetSchedule.DailyHour` / `ResetSchedule.WeeklyDay` configuration
values read by `GetNextResetTime` (defaults 9 and 2). -/
structure ResetScheduleConfig where
  DailyHour : Int
  WeeklyDay : Int
  deriving DecidableEq, Repr

/-- The world-clock context consumed by `GetNextResetTime`:
`GameTime::GetDateAndTime()` plus the configuration store. -/
structure WorldCtx where
  dateAndTime : tm
  config : ResetScheduleConfig
  deriving DecidableEq, Repr

/-- The catalog data reachable from a `MapDb2Entries` pair: the `MapEntry`
flag `IsFlexLocking` and the `MapDifficultyEntry` fields and predicates
used by the lock manager. -/
structure MapDb2Entries where
  IsFlexLocking : Bool
  HasResetSchedule : Bool
  IsUsingEncounterLocks : Bool
  ResetInterval : MapDifficultyResetInterval
  RaidDuration : Int
  MapID : Nat
  LockID : Nat
  DifficultyID : Nat
  deriving DecidableEq, Repr

/-- `MapDb2Entries::GetKey`: the `(MapID, LockID)` binding key. -/
def MapDb2Entries.GetKey (e : MapDb2Entries) : Nat × Nat :=
  (e.MapID, e.LockID)

/-- `MapDb2Entries::IsInstanceIdBound`: not flex-locking and not using
encounter locks. -/
def MapDb2Entries.IsInstanceIdBound (e : MapDb2Entries) : Bool :=
  !e.IsFlexLocking && !e.IsUsingEncounterLocks

/-- `InstanceLockMgr::GetNextResetTime` (lines 437-469). -/
def GetNextResetTime (ctx : WorldCtx) (entries : MapDb2Entries) : Int :=
  let dateTime : tm := { ctx.dateAndTime with tm_sec := 0, tm_min := 0 }
  let resetHour : Int := ctx.config.DailyHour
  match entries.ResetInterval with
  | .MAP_DIFFICULTY_RESET_DAILY =>
      let dateTime :=
        if dateTime.tm_hour ≥ resetHour then
          { dateTime with tm_mday := dateTime.tm_mday + 1 }
        else dateTime
      mktime { dateTime with tm_hour := resetHour }
  | .MAP_DIFFICULTY_RESET_WEEKLY =>
      let resetDay : Int := ctx.config.WeeklyDay
      let daysAdjust : Int := resetDay - dateTime.tm_wday
      let daysAdjust :=
        if dateTime.tm_wday > resetDay ∨
            (dateTime.tm_wday = resetDay ∧ dateTime.tm_hour ≥ resetHour) then
          daysAdjust + 7
        else daysAdjust
      mktime { dateTime with tm_hour := resetHour,
                             tm_mday := dateTime.tm_mday + daysAdjust }
  | .MAP_DIFFICULTY_RESET_ANYTIME => mktime dateTime

/-- `InstanceLockData`: the progress blob living on a binding (or shared). -/
structure InstanceLockData where
  Data : String
  CompletedEncountersMask : Nat
  EntranceWorldSafeLocId : Nat
  deriving DecidableEq, Repr

/-- `SharedInstanceLockData`: the jointly owned per-instance record. -/
structure SharedInstanceLockData where
  Data : String
  CompletedEncountersMask : Nat
  EntranceWorldSafeLocId : Nat
  InstanceId : Nat
  deriving DecidableEq, Repr

/-- An `InstanceLock` binding.  `sharedLock` records whether the object is a
`SharedInstanceLock`; for those, `data` is the view through `GetData()` of
the shared record's blob. -/
structure InstanceLock where
  mapId : Nat
  difficultyId : Nat
  instanceId : Nat
  expiryTime : Int
  extended : Bool
  sharedLock : Bool
  data : InstanceLockData
  deriving DecidableEq, Repr

/-- `InstanceLock::IsExpired`: `_expiryTime < GameTime::GetSystemTime()`. -/
def InstanceLock.IsExpired (lock : InstanceLock) (now : Int) : Bool :=
  lock.expiryTime < now

/-- `InstanceLock::GetEffectiveExpiryTime` (lines 43-56): `catalog` supplies
the `MapDb2Entries` constructed from the lock's own map and difficulty. -/
def InstanceLock.GetEffectiveExpiryTime (lock : InstanceLock)
    (catalog : Nat → Nat → MapDb2Entries) (ctx : WorldCtx) (now : Int) : Int :=
  if !lock.extended then lock.expiryTime
  else
    let entries := catalog lock.mapId lock.difficultyId
    if lock.IsExpired now then GetNextResetTime ctx entries
    else lock.expiryTime + entries.RaidDuration

/-- 32-bit complement: `~m` on a `uint32` value. -/
def compl32 (m : Nat) : Nat := m ^^^ 4294967295

/-- A key of the binding stores: `(mapId, lockId)`. -/
abbrev InstanceLockKey := Nat × Nat

/-- A binding store: `playerGuid → (mapId, lockId) → Binding`. -/
abbrev LockMap := Nat → InstanceLockKey → Option InstanceLock

/-- The shared-record registry `_instanceLockDataById` (weak handles). -/
abbrev LockDataById := Nat → Option SharedInstanceLockData

/-- SQL statements emitted by the manager. -/
inductive Stmt where
  | deleteCharacterInstanceLock (guid mapId lockId : Nat)
  | insertCharacterInstanceLock (guid mapId lockId instanceId difficultyId : Nat)
      (data : String) (mask entrance : Nat) (expiry : Int) (extended : Bool)
  | deleteCharacterInstanceLockByInstance (instanceId : Nat)
  | deleteInstance2 (instanceId : Nat)
  | insertInstance2 (instanceId : Nat) (data : String) (mask entrance : Nat)
  | updateCharacterInstanceLockExtended (guid mapId lockId : Nat) (extended : Bool)
  deriving DecidableEq, Repr

/-- The manager's mutable state.  `liveShared` lists the shared records kept
alive by strong references from permanent bindings; clearing the permanent
store destroys them (their destructors run), which `Unload` models by
folding the destructor over this list. -/
structure MgrState where
  instanceLocksByPlayer : LockMap
  temporaryInstanceLocksByPlayer : LockMap
  instanceLockDataById : LockDataById
  unloading : Bool
  liveShared : List SharedInstanceLockData

/-- Store insertion: `m[guid][key] = lock` (replacing any existing entry). -/
def insertLock (m : LockMap) (guid : Nat) (key : InstanceLockKey)
    (lock : InstanceLock) : LockMap :=
  fun g k => if g = guid ∧ k = key then some lock else m g k

/-- Store erasure of one `(guid, key)` slot. -/
def eraseLock (m : LockMap) (guid : Nat) (key : InstanceLockKey) : LockMap :=
  fun g k => if g = guid ∧ k = key then none else m g k

/-- Registry insertion. -/
def insertLockData (r : LockDataById) (id : Nat)
    (d : SharedInstanceLockData) : LockDataById :=
  fun i => if i = id then some d else r i

/-- Registry erasure. -/
def eraseLockData (r : LockDataById) (id : Nat) : LockDataById :=
  fun i => if i = id then none else r i

/-- `InstanceLockMgr::FindInstanceLock` (lines 198-209). -/
def FindInstanceLock (locks : LockMap) (playerGuid : Nat)
    (key : InstanceLockKey) : Option InstanceLock :=
  locks playerGuid key

/-- `InstanceLockMgr::FindActiveInstanceLock`, four-argument form
(lines 216-228). -/
def FindActiveInstanceLock (st : MgrState) (now : Int) (playerGuid : Nat)
    (key : InstanceLockKey) (ignoreTemporary ignoreExpired : Bool) :
    Option InstanceLock :=
  match FindInstanceLock st.instanceLocksByPlayer playerGuid key with
  | some lock =>
      if !lock.IsExpired now || lock.extended || !ignoreExpired then some lock
      else if ignoreTemporary then none
      else FindInstanceLock st.temporaryInstanceLocksByPlayer playerGuid key
  | none =>
      if ignoreTemporary then none
      else FindInstanceLock st.temporaryInstanceLocksByPlayer playerGuid key

/-- `InstanceLockMgr::FindActiveInstanceLock`, two-argument alias
(lines 211-214): `ignoreTemporary = false`, `ignoreExpired = true`. -/
def FindActiveInstanceLock' (st : MgrState) (now : Int) (playerGuid : Nat)
    (key : InstanceLockKey) : Option InstanceLock :=
  FindActiveInstanceLock st now playerGuid key false true

/-- `InstanceLockMgr::CanJoinInstanceLock` (lines 174-196). -/
def CanJoinInstanceLock (st : MgrState) (now : Int) (playerGuid : Nat)
    (entries : MapDb2Entries) (instanceLock : InstanceLock) :
    TransferAbortReason :=
  if !entries.HasResetSchedule then .TRANSFER_ABORT_NONE
  else
    match FindActiveInstanceLock' st now playerGuid entries.GetKey with
    | none => .TRANSFER_ABORT_NONE
    | some playerInstanceLock =>
        if entries.IsFlexLocking then
          if playerInstanceLock.data.CompletedEncountersMask &&&
              compl32 instanceLock.data.CompletedEncountersMask ≠ 0 then
            .TRANSFER_ABORT_ALREADY_COMPLETED_ENCOUNTER
          else .TRANSFER_ABORT_NONE
        else
          if entries.IsUsingEncounterLocks = false ∧ playerInstanceLock.instanceId ≠ 0 ∧
              playerInstanceLock.instanceId ≠ instanceLock.instanceId then
            .TRANSFER_ABORT_LOCKED_TO_DIFFERENT_INSTANCE
          else .TRANSFER_ABORT_NONE

/-- `InstanceLockMgr::OnSharedInstanceLockDataDelete` (lines 407-415):
no-op while unloading, otherwise erase the weak handle and emit the
shared-table delete. -/
def OnSharedInstanceLockDataDelete (st : MgrState) (instanceId : Nat) :
    MgrState × List Stmt :=
  if st.unloading then (st, [])
  else
    ({ st with instanceLockDataById := eraseLockData st.instanceLockDataById instanceId },
     [Stmt.deleteInstance2 instanceId])

/-- `SharedInstanceLockData::~SharedInstanceLockData` (lines 60-65): the
destructor invokes the deletion hook only when `InstanceId` is nonzero. -/
def destroySharedInstanceLockData (st : MgrState) (d : SharedInstanceLockData) :
    MgrState × List Stmt :=
  if d.InstanceId ≠ 0 then OnSharedInstanceLockDataDelete st d.InstanceId
  else (st, [])

/-- Destroys a list of shared records in order, accumulating the emitted
statements (the effect of a store `clear()` on the records it owns). -/
def destroyAllShared (st : MgrState) :
    List SharedInstanceLockData → MgrState × List Stmt
  | [] => (st, [])
  | d :: ds =>
      let p := destroySharedInstanceLockData st d
      let q := destroyAllShared p.1 ds
      (q.1, p.2 ++ q.2)

/-- `InstanceLockMgr::Unload` (lines 167-172): sets `_unloading`, then
clears `_instanceLocksByPlayer` (destroying the shared records its bindings
own) and `_instanceLockDataById`.  The temporary store is not touched. -/
def Unload (st : MgrState) : MgrState × List Stmt :=
  let st1 : MgrState := { st with unloading := true }
  let p := destroyAllShared st1 st1.liveShared
  ({ p.1 with instanceLocksByPlayer := fun _ _ => none,
              instanceLockDataById := fun _ => none,
              liveShared := [] }, p.2)

/-- `InstanceLockMgr::CreateInstanceLockForNewInstance` (lines 244-267). -/
def CreateInstanceLockForNewInstance (st : MgrState) (ctx : WorldCtx)
    (playerGuid : Nat) (entries : MapDb2Entries) (instanceId : Nat) :
    MgrState × Option InstanceLock :=
  if !entries.HasResetSchedule then (st, none)
  else
    -- Modelled from the spec: the fresh `SharedInstanceLockData` produced by
    -- `std::make_shared` carries the header's defaults — empty `Data`, zero
    -- mask, zero entrance location, `InstanceId = 0` (assigned on promotion).
    let sharedData : SharedInstanceLockData :=
      { Data := "", CompletedEncountersMask := 0, EntranceWorldSafeLocId := 0,
        InstanceId := 0 }
    let instanceLock : InstanceLock :=
      { mapId := entries.MapID, difficultyId := entries.DifficultyID,
        instanceId := 0, expiryTime := GetNextResetTime ctx entries,
        extended := false, sharedLock := entries.IsInstanceIdBound,
        data := { Data := "", CompletedEncountersMask := 0,
                  EntranceWorldSafeLocId := 0 } }
    let st1 : MgrState :=
      if entries.IsInstanceIdBound then
        { st with instanceLockDataById :=
            insertLockData st.instanceLockDataById instanceId sharedData }
      else st
    let newTemp :=
      insertLock st1.temporaryInstanceLocksByPlayer playerGuid entries.GetKey
        instanceLock
    ({ st1 with temporaryInstanceLocksByPlayer := newTemp }, some instanceLock)

/-- `InstanceLockUpdateEvent`: `CompletedEncounter` is modelled by its
`DungeonEncounterEntry::Bit` when present. -/
structure InstanceLockUpdateEvent where
  InstanceId : Nat
  NewData : String
  CompletedEncounterBit : Option Nat
  InstanceCompletedEncountersMask : Nat
  deriving DecidableEq, Repr

/-- Step A of `UpdateInstanceLockForPlayer` (lines 272-297): locate a usable
permanent binding, or move a temporary with the same key into the permanent
store (promotion). -/
def lockUpdateLocate (st : MgrState) (now : Int) (playerGuid : Nat)
    (key : InstanceLockKey) : MgrState × Option InstanceLock :=
  match FindActiveInstanceLock st now playerGuid key true true with
  | some lock => (st, some lock)
  | none =>
      match st.temporaryInstanceLocksByPlayer playerGuid key with
      | some tempLock =>
          ({ st with
              instanceLocksByPlayer :=
                insertLock st.instanceLocksByPlayer playerGuid key tempLock,
              temporaryInstanceLocksByPlayer :=
                eraseLock st.temporaryInstanceLocksByPlayer playerGuid key },
           some tempLock)
      | none => (st, none)

/-- Lines 299-332 of `UpdateInstanceLockForPlayer`: fabricate a fresh
permanent binding when none was located (resolving the shared record from
the registry for instance-bound dungeons), or validate the located binding
against the registry and assign its instance id.  `ASSERT` failures are
`none`. -/
def lockUpdateObtain (st : MgrState) (ctx : WorldCtx) (now : Int)
    (playerGuid : Nat) (entries : MapDb2Entries)
    (updateEvent : InstanceLockUpdateEvent) :
    Option (MgrState × InstanceLock) :=
  match lockUpdateLocate st now playerGuid entries.GetKey with
  | (st1, none) =>
      if entries.IsInstanceIdBound then
        match st1.instanceLockDataById updateEvent.InstanceId with
        | none => none
        | some sharedData =>
            if sharedData.InstanceId ≠ updateEvent.InstanceId then none
            else
              some (st1,
                { mapId := entries.MapID, difficultyId := entries.DifficultyID,
                  instanceId := updateEvent.InstanceId,
                  expiryTime := GetNextResetTime ctx entries, extended := false,
                  sharedLock := true,
                  data := { Data := sharedData.Data,
                            CompletedEncountersMask :=
                              sharedData.CompletedEncountersMask,
                            EntranceWorldSafeLocId :=
                              sharedData.EntranceWorldSafeLocId } })
      else
        some (st1,
          { mapId := entries.MapID, difficultyId := entries.DifficultyID,
            instanceId := updateEvent.InstanceId,
            expiryTime := GetNextResetTime ctx entries, extended := false,
            sharedLock := false,
            data := { Data := "", CompletedEncountersMask := 0,
                      EntranceWorldSafeLocId := 0 } })
  | (st1, some lock) =>
      if entries.IsInstanceIdBound then
        if lock.instanceId ≠ 0 ∧ lock.instanceId ≠ updateEvent.InstanceId then none
        else
          match st1.instanceLockDataById updateEvent.InstanceId with
          | none => none
          | some _ => some (st1, { lock with instanceId := updateEvent.InstanceId })
      else some (st1, { lock with instanceId := updateEvent.InstanceId })

/-- Step B of `UpdateInstanceLockForPlayer` (lines 334-347): overwrite the
data blob, OR in the completed encounter bit, and for non-encounter-locked
dungeons OR in the instance-wide mask. -/
def applyUpdateEvent (entries : MapDb2Entries)
    (updateEvent : InstanceLockUpdateEvent) (lock : InstanceLock) :
    InstanceLock :=
  let lock := { lock with data := { lock.data with Data := updateEvent.NewData } }
  let lock :=
    match updateEvent.CompletedEncounterBit with
    | some bit =>
        { lock with data := { lock.data with CompletedEncountersMask :=
            lock.data.CompletedEncountersMask ||| (1 <<< bit) % 4294967296 } }
    | none => lock
  if !entries.IsUsingEncounterLocks then
    { lock with data := { lock.data with CompletedEncountersMask :=
        lock.data.CompletedEncountersMask |||
          updateEvent.InstanceCompletedEncountersMask } }
  else lock

/-- Lines 349-358 of `UpdateInstanceLockForPlayer`: an expired binding must
be extended (asserted), and is resurrected to the next reset window with the
extension consumed. -/
def resurrectIfExpired (ctx : WorldCtx) (entries : MapDb2Entries) (now : Int)
    (lock : InstanceLock) : Option InstanceLock :=
  if lock.IsExpired now then
    if !lock.extended then none
    else some { lock with expiryTime := GetNextResetTime ctx entries,
                          extended := false }
  else some lock

/-- The delete+insert pair appended to the transaction (lines 361-377). -/
def lockUpdateStatements (playerGuid : Nat) (entries : MapDb2Entries)
    (lock : InstanceLock) : List Stmt :=
  [Stmt.deleteCharacterInstanceLock playerGuid entries.MapID entries.LockID,
   Stmt.insertCharacterInstanceLock playerGuid entries.MapID entries.LockID
     lock.instanceId entries.DifficultyID lock.data.Data
     lock.data.CompletedEncountersMask lock.data.EntranceWorldSafeLocId
     lock.expiryTime lock.extended]

/-- Modelled from the spec: `SharedInstanceLock`'s `GetData()` aliases the
shared record and promotion assigns the record's `instanceId`
(`InstanceLockMgr.h` is not in the sources), so after an update of an
instance-bound lock the registry's record mirrors the binding's blob and
carries the event's instance id. -/
def writeThroughSharedData (st : MgrState) (entries : MapDb2Entries)
    (updateEvent : InstanceLockUpdateEvent) (lock : InstanceLock) : MgrState :=
  if entries.IsInstanceIdBound then
    let sharedRec : SharedInstanceLockData :=
      { Data := lock.data.Data,
        CompletedEncountersMask := lock.data.CompletedEncountersMask,
        EntranceWorldSafeLocId := lock.data.EntranceWorldSafeLocId,
        InstanceId := updateEvent.InstanceId }
    let newById := insertLockData st.instanceLockDataById updateEvent.InstanceId sharedRec
    { st with instanceLockDataById := newById }
  else st

/-- `InstanceLockMgr::UpdateInstanceLockForPlayer` (lines 269-380), returning
the new state, the updated binding and the emitted statements, or `none` on
an `ASSERT` failure. -/
def UpdateInstanceLockForPlayer (st : MgrState) (ctx : WorldCtx) (now : Int)
    (playerGuid : Nat) (entries : MapDb2Entries)
    (updateEvent : InstanceLockUpdateEvent) :
    Option (MgrState × InstanceLock × List Stmt) :=
  match lockUpdateObtain st ctx now playerGuid entries updateEvent with
  | none => none
  | some (st1, lock0) =>
      let lock1 := applyUpdateEvent entries updateEvent lock0
      match resurrectIfExpired ctx entries now lock1 with
      | none => none
      | some lock2 =>
          let newPerm :=
            insertLock st1.instanceLocksByPlayer playerGuid entries.GetKey lock2
          let st2 : MgrState := { st1 with instanceLocksByPlayer := newPerm }
          let st3 := writeThroughSharedData st2 entries updateEvent lock2
          some (st3, lock2, lockUpdateStatements playerGuid entries lock2)

/-- A row of the shared-record `SELECT` in `Load` (lines 106-121):
`instanceId, data, completedEncountersMask` from the `instance` table. -/
structure InstanceRow where
  instanceId : Nat
  data : String
  completedEncountersMask : Nat
  deriving DecidableEq, Repr

/-- A row of the per-player `SELECT` in `Load` (lines 124-135):
`guid, mapId, lockId, instanceId, difficulty, data, completedEncountersMask,
expiryTime, extended` from `character_instance_lock`. -/
structure CharacterInstanceLockRow where
  guid : Nat
  mapId : Nat
  lockId : Nat
  instanceId : Nat
  difficulty : Nat
  data : String
  completedEncountersMask : Nat
  expiryTime : Int
  extended : Bool
  deriving DecidableEq, Repr

/-- The local `instanceLockDataById` index built by the first `Load` loop
(lines 103-121): each row yields a `SharedInstanceLockData` with the row's
fields (the entrance location is not selected and keeps its default 0). -/
def buildSharedIndex (rows : List InstanceRow) : LockDataById :=
  rows.foldl
    (fun m r =>
      insertLockData m r.instanceId
        { Data := r.data, CompletedEncountersMask := r.completedEncountersMask,
          EntranceWorldSafeLocId := 0, InstanceId := r.instanceId })
    (fun _ => none)

/-- The accumulator threaded through the second `Load` loop: manager state,
the local shared index (whose records the constructed bindings alias), and
the statements issued so far. -/
structure LoadAcc where
  st : MgrState
  idx : LockDataById
  stmts : List Stmt

/-- One iteration of the second `Load` loop (lines 126-163).  For an
instance-bound row whose shared record is missing, an error is logged and
the orphaned row deleted; otherwise the binding is built, its `GetData()`
fields overwritten from the row's columns, and stored under
`(mapId, lockId)`. -/
def loadPlayerRow (catalog : Nat → Nat → MapDb2Entries) (acc : LoadAcc)
    (row : CharacterInstanceLockRow) : LoadAcc :=
  let entries := catalog row.mapId row.difficulty
  if entries.IsInstanceIdBound then
    match acc.idx row.instanceId with
    | none =>
        { acc with stmts :=
            acc.stmts ++ [Stmt.deleteCharacterInstanceLockByInstance row.instanceId] }
    | some sharedData =>
        -- lines 157-159 write through `GetData()`, which for a
        -- `SharedInstanceLock` is the shared record itself
        let newRec : SharedInstanceLockData :=
          { sharedData with Data := row.data,
                            CompletedEncountersMask := row.completedEncountersMask }
        let lock : InstanceLock :=
          { mapId := row.mapId, difficultyId := row.difficulty,
            instanceId := row.instanceId, expiryTime := row.expiryTime,
            extended := row.extended, sharedLock := true,
            data := { Data := newRec.Data,
                      CompletedEncountersMask := newRec.CompletedEncountersMask,
                      EntranceWorldSafeLocId := newRec.EntranceWorldSafeLocId } }
        let newPerm :=
          insertLock acc.st.instanceLocksByPlayer row.guid (row.mapId, row.lockId)
            lock
        let newById :=
          insertLockData acc.st.instanceLockDataById row.instanceId newRec
        { st := { acc.st with instanceLocksByPlayer := newPerm,
                              instanceLockDataById := newById,
                              liveShared := newRec :: acc.st.liveShared },
          idx := insertLockData acc.idx row.instanceId newRec,
          stmts := acc.stmts }
  else
    let lock : InstanceLock :=
      { mapId := row.mapId, difficultyId := row.difficulty,
        instanceId := row.instanceId, expiryTime := row.expiryTime,
        extended := row.extended, sharedLock := false,
        data := { Data := row.data,
                  CompletedEncountersMask := row.completedEncountersMask,
                  EntranceWorldSafeLocId := 0 } }
    let newPerm :=
      insertLock acc.st.instanceLocksByPlayer row.guid (row.mapId, row.lockId) lock
    { acc with st := { acc.st with instanceLocksByPlayer := newPerm } }

/-- The second `Load` loop over all per-player rows. -/
def loadPlayerRows (catalog : Nat → Nat → MapDb2Entries) (acc : LoadAcc)
    (rows : List CharacterInstanceLockRow) : LoadAcc :=
  rows.foldl (loadPlayerRow catalog) acc

/-- `InstanceLockMgr::Load` (lines 101-165) over the two result sets. -/
def Load (catalog : Nat → Nat → MapDb2Entries) (st : MgrState)
    (sharedRows : List InstanceRow) (playerRows : List CharacterInstanceLockRow) :
    MgrState × List Stmt :=
  let acc := loadPlayerRows catalog
    { st := st, idx := buildSharedIndex sharedRows, stmts := [] } playerRows
  (acc.st, acc.stmts)

/-! Concrete fixtures used to instantiate the theorems below. -/

def emptyMgrState : MgrState :=
  { instanceLocksByPlayer := fun _ _ => none,
    temporaryInstanceLocksByPlayer := fun _ _ => none,
    instanceLockDataById := fun _ => none,
    unloading := false, liveShared := [] }

def testPlayerLock : InstanceLock :=
  { mapId := 100, difficultyId := 5, instanceId := 42, expiryTime := 10,
    extended := false, sharedLock := false,
    data := { Data := "", CompletedEncountersMask := 7,
              EntranceWorldSafeLocId := 0 } }

def testCandidateLock : InstanceLock :=
  { mapId := 100, difficultyId := 5, instanceId := 43, expiryTime := 10,
    extended := false, sharedLock := false,
    data := { Data := "", CompletedEncountersMask := 6,
              EntranceWorldSafeLocId := 0 } }

def testState : MgrState :=
  { emptyMgrState with
    instanceLocksByPlayer := insertLock (fun _ _ => none) 1 (100, 7) testPlayerLock }

def testEntriesFlex : MapDb2Entries :=
  { IsFlexLocking := true, HasResetSchedule := true,
    IsUsingEncounterLocks := false,
    ResetInterval := .MAP_DIFFICULTY_RESET_WEEKLY, RaidDuration := 604800,
    MapID := 100, LockID := 7, DifficultyID := 5 }

def testTempLock : InstanceLock :=
  { mapId := 100, difficultyId := 5, instanceId := 0, expiryTime := 50,
    extended := false, sharedLock := false,
    data := { Data := "", CompletedEncountersMask := 0,
              EntranceWorldSafeLocId := 0 } }

def testState2 : MgrState :=
  { emptyMgrState with
    instanceLocksByPlayer := insertLock (fun _ _ => none) 1 (100, 7) testPlayerLock,
    temporaryInstanceLocksByPlayer := insertLock (fun _ _ => none) 1 (100, 7) testTempLock }

def testCtx : WorldCtx :=
  { dateAndTime := { tm_sec := 0, tm_min := 0, tm_hour := 12, tm_mday := 0 },
    config := { DailyHour := 9, WeeklyDay := 2 } }

def testExtendedExpiredLock : InstanceLock :=
  { testPlayerLock with extended := true }

def testState3 : MgrState :=
  { emptyMgrState with
    instanceLocksByPlayer := insertLock (fun _ _ => none) 1 (100, 7) testExtendedExpiredLock }

def testEvent : InstanceLockUpdateEvent :=
  { InstanceId := 42, NewData := "x", CompletedEncounterBit := some 3,
    InstanceCompletedEncountersMask := 0 }

def testSharedRec : SharedInstanceLockData :=
  { Data := "", CompletedEncountersMask := 0, EntranceWorldSafeLocId := 0,
    InstanceId := 5 }

def testFreshSharedRec : SharedInstanceLockData :=
  { Data := "", CompletedEncountersMask := 0, EntranceWorldSafeLocId := 0,
    InstanceId := 0 }

def testEntriesBound : MapDb2Entries :=
  { IsFlexLocking := false, HasResetSchedule := true,
    IsUsingEncounterLocks := false,
    ResetInterval := .MAP_DIFFICULTY_RESET_WEEKLY, RaidDuration := 604800,
    MapID := 100, LockID := 7, DifficultyID := 5 }

def testLoadAcc : LoadAcc :=
  { st := emptyMgrState, idx := fun _ => none, stmts := [] }

def testRow : CharacterInstanceLockRow :=
  { guid := 1, mapId := 100, lockId := 7, instanceId := 9, difficulty := 5,
    data := "", completedEncountersMask := 0, expiryTime := 10,
    extended := false }

/-! Helper lemmas. -/

/-- Step B of an update never changes a binding's expiry time. -/
theorem applyUpdateEvent_expiryTime (entries : MapDb2Entries)
    (updateEvent : InstanceLockUpdateEvent) (lock : InstanceLock) :
    (applyUpdateEvent entries updateEvent lock).expiryTime = lock.expiryTime := by
  unfold applyUpdateEvent
  cases updateEvent.CompletedEncounterBit <;> dsimp only <;> split <;> rfl

/-- Step B of an update never changes a binding's extension flag. -/
theorem applyUpdateEvent_extended (entries : MapDb2Entries)
    (updateEvent : InstanceLockUpdateEvent) (lock : InstanceLock) :
    (applyUpdateEvent entries updateEvent lock).extended = lock.extended := by
  unfold applyUpdateEvent
  cases updateEvent.CompletedEncounterBit <;> dsimp only <;> split <;> rfl

/-- On an expired binding, the resurrection step asserts the extension flag
and refreshes the expiry. -/
theorem resurrectIfExpired_of_expired (ctx : WorldCtx) (entries : MapDb2Entries)
    (now : Int) (lock : InstanceLock) (h : lock.IsExpired now = true) :
    resurrectIfExpired ctx entries now lock =
      if lock.extended then
        some { lock with expiryTime := GetNextResetTime ctx entries,
                         extended := false }
      else none := by
  unfold resurrectIfExpired
  rw [h]
  cases hext : lock.extended <;> simp [hext]

/-- With the `_unloading` flag set, destroying shared records neither
changes the state nor emits statements. -/
theorem destroyAllShared_of_unloading (st : MgrState) (h : st.unloading = true) :
    ∀ ds, destroyAllShared st ds = (st, []) := by
  intro ds
  induction ds with
  | nil => rfl
  | cons d ds ih =>
      have hd : destroySharedInstanceLockData st d = (st, []) := by
        unfold destroySharedInstanceLockData OnSharedInstanceLockDataDelete
        rw [h]
        split <;> simp
      unfold destroyAllShared
      rw [hd]
      dsimp only
      rw [ih]
      rfl

/-! Claim theorems. -/

/-- C1: `CanJoinInstanceLock` returns `NONE` when the difficulty has no
reset schedule or the player has no active binding under the key; for a
flex-locking map it returns `ALREADY_COMPLETED_ENCOUNTER` exactly when
`playerMask & ~candidateMask` is nonzero and `NONE` otherwise; for a
non-flex map using encounter locks it always returns `NONE`; for an
instance-bound map it returns `LOCKED_TO_DIFFERENT_INSTANCE` exactly when
the player's binding has a nonzero `instanceId` differing from the
candidate's, and `NONE` otherwise. -/
theorem canJoinInstanceLock_spec (st : MgrState) (now : Int) (playerGuid : Nat)
    (entries : MapDb2Entries) (candidate : InstanceLock) :
    (entries.HasResetSchedule = false →
      CanJoinInstanceLock st now playerGuid entries candidate =
        .TRANSFER_ABORT_NONE) ∧
    (FindActiveInstanceLock' st now playerGuid entries.GetKey = none →
      CanJoinInstanceLock st now playerGuid entries candidate =
        .TRANSFER_ABORT_NONE) ∧
    (∀ p, entries.HasResetSchedule = true →
      FindActiveInstanceLock' st now playerGuid entries.GetKey = some p →
      entries.IsFlexLocking = true →
      CanJoinInstanceLock st now playerGuid entries candidate =
        (if p.data.CompletedEncountersMask &&&
             compl32 candidate.data.CompletedEncountersMask ≠ 0 then
           .TRANSFER_ABORT_ALREADY_COMPLETED_ENCOUNTER
         else .TRANSFER_ABORT_NONE)) ∧
    (entries.IsFlexLocking = false → entries.IsUsingEncounterLocks = true →
      CanJoinInstanceLock st now playerGuid entries candidate =
        .TRANSFER_ABORT_NONE) ∧
    (∀ p, entries.HasResetSchedule = true →
      FindActiveInstanceLock' st now playerGuid entries.GetKey = some p →
      entries.IsFlexLocking = false → entries.IsUsingEncounterLocks = false →
      CanJoinInstanceLock st now playerGuid entries candidate =
        (if p.instanceId ≠ 0 ∧ p.instanceId ≠ candidate.instanceId then
           .TRANSFER_ABORT_LOCKED_TO_DIFFERENT_INSTANCE
         else .TRANSFER_ABORT_NONE)) := by
  refine ⟨?_, ?_, ?_, ?_, ?_⟩
  · intro h
    simp [CanJoinInstanceLock, h]
  · intro h
    unfold CanJoinInstanceLock
    rw [h]
    split <;> simp
  · intro p hs hf hflex
    unfold CanJoinInstanceLock
    rw [hf, hs, hflex]
    simp
  · intro hflex henc
    unfold CanJoinInstanceLock
    split
    · rfl
    · rename_i hsched
      split
      · rfl
      · rw [hflex, henc]
        simp
  · intro p hs hf hflex henc
    unfold CanJoinInstanceLock
    rw [hf, hs, hflex, henc]
    simp

/-- C1 witness: a flex-locking entry, a player whose mask has a bit the
candidate lacks, and the resulting rejection. -/
theorem canJoinInstanceLock_spec_witness :
    CanJoinInstanceLock testState 5 1 testEntriesFlex testCandidateLock =
      .TRANSFER_ABORT_ALREADY_COMPLETED_ENCOUNTER := by
  have h := (canJoinInstanceLock_spec testState 5 1 testEntriesFlex
    testCandidateLock).2.2.1 testPlayerLock rfl (by decide) rfl
  rw [h]
  decide

/-- C2: `FindActiveInstanceLock` returns the permanent binding when one
exists and it is not expired, or is extended, or `ignoreExpired` is false;
otherwise the temporary binding when `ignoreTemporary` is false, and `none`
when it is true.  The two-argument alias uses `(false, true)`, so an
expired-and-not-extended permanent is invisible to it while a temporary
with the same key is returned. -/
theorem findActiveInstanceLock_spec (st : MgrState) (now : Int)
    (playerGuid : Nat) (key : InstanceLockKey) :
    (∀ lock it ie, st.instanceLocksByPlayer playerGuid key = some lock →
      (¬lock.expiryTime < now ∨ lock.extended = true ∨ ie = false) →
      FindActiveInstanceLock st now playerGuid key it ie = some lock) ∧
    (∀ lock ie, st.instanceLocksByPlayer playerGuid key = some lock →
      lock.expiryTime < now → lock.extended = false → ie = true →
      FindActiveInstanceLock st now playerGuid key false ie =
        st.temporaryInstanceLocksByPlayer playerGuid key ∧
      FindActiveInstanceLock st now playerGuid key true ie = none) ∧
    (∀ it ie, st.instanceLocksByPlayer playerGuid key = none →
      (it = false → FindActiveInstanceLock st now playerGuid key it ie =
        st.temporaryInstanceLocksByPlayer playerGuid key) ∧
      (it = true → FindActiveInstanceLock st now playerGuid key it ie = none)) ∧
    (FindActiveInstanceLock' st now playerGuid key =
      FindActiveInstanceLock st now playerGuid key false true) ∧
    (∀ lock, st.instanceLocksByPlayer playerGuid key = some lock →
      lock.expiryTime < now → lock.extended = false →
      FindActiveInstanceLock' st now playerGuid key =
        st.temporaryInstanceLocksByPlayer playerGuid key) := by
  refine ⟨?_, ?_, ?_, rfl, ?_⟩
  · intro lock it ie hperm hcond
    unfold FindActiveInstanceLock FindInstanceLock
    rw [hperm]
    have : (!lock.IsExpired now || lock.extended || !ie) = true := by
      rcases hcond with h | h | h
      · simp [InstanceLock.IsExpired, h]
      · simp [h]
      · simp [h]
    simp [this]
  · intro lock ie hperm hexp hext hie
    subst hie
    unfold FindActiveInstanceLock FindInstanceLock
    rw [hperm]
    simp [InstanceLock.IsExpired, hexp, hext]
  · intro it ie hperm
    unfold FindActiveInstanceLock FindInstanceLock
    rw [hperm]
    constructor <;> intro h <;> subst h <;> simp
  · intro lock hperm hexp hext
    unfold FindActiveInstanceLock' FindActiveInstanceLock FindInstanceLock
    rw [hperm]
    simp [InstanceLock.IsExpired, hexp, hext]

/-- C2 witness: an expired, unextended permanent plus a temporary under the
same key; the alias returns the temporary. -/
theorem findActiveInstanceLock_spec_witness :
    FindActiveInstanceLock' testState2 20 1 (100, 7) = some testTempLock := by
  have h := (findActiveInstanceLock_spec testState2 20 1 (100, 7)).2.2.2.2
    testPlayerLock rfl (by decide) rfl
  rw [h]
  rfl

/-- C3: `GetEffectiveExpiryTime` equals `expiryTime` when not extended; when
extended and expired it equals the next reset time for the lock's entries;
when extended and not expired it equals `expiryTime` plus the raid
duration. -/
theorem getEffectiveExpiryTime_spec (lock : InstanceLock)
    (catalog : Nat → Nat → MapDb2Entries) (ctx : WorldCtx) (now : Int) :
    (lock.extended = false →
      lock.GetEffectiveExpiryTime catalog ctx now = lock.expiryTime) ∧
    (lock.extended = true → lock.expiryTime < now →
      lock.GetEffectiveExpiryTime catalog ctx now =
        GetNextResetTime ctx (catalog lock.mapId lock.difficultyId)) ∧
    (lock.extended = true → ¬lock.expiryTime < now →
      lock.GetEffectiveExpiryTime catalog ctx now =
        lock.expiryTime + (catalog lock.mapId lock.difficultyId).RaidDuration) := by
  refine ⟨?_, ?_, ?_⟩
  · intro h
    simp [InstanceLock.GetEffectiveExpiryTime, h]
  · intro h hexp
    simp [InstanceLock.GetEffectiveExpiryTime, InstanceLock.IsExpired, h, hexp]
  · intro h hexp
    simp [InstanceLock.GetEffectiveExpiryTime, InstanceLock.IsExpired, h, hexp]

/-- C3 witness: an extended and expired lock falls to the next reset time. -/
theorem getEffectiveExpiryTime_spec_witness :
    testExtendedExpiredLock.GetEffectiveExpiryTime (fun _ _ => testEntriesFlex)
      testCtx 20 = GetNextResetTime testCtx testEntriesFlex := by
  have h := (getEffectiveExpiryTime_spec testExtendedExpiredLock
    (fun _ _ => testEntriesFlex) testCtx 20).2.1 rfl (by decide)
  exact h

/-- C4: with a daily reset interval `GetNextResetTime` returns today at the
reset hour when the current hour is strictly below it and tomorrow at the
reset hour otherwise; with a weekly interval it returns the next occurrence
of the configured weekday at the reset hour strictly after now (rolling
forward seven days when today is the reset day at or past the reset hour);
in all cases minutes and seconds of the result are zero. -/
theorem getNextResetTime_spec (ctx : WorldCtx) (entries : MapDb2Entries)
    (hmin : 0 ≤ ctx.dateAndTime.tm_min ∧ ctx.dateAndTime.tm_min < 60)
    (hsec : 0 ≤ ctx.dateAndTime.tm_sec ∧ ctx.dateAndTime.tm_sec < 60)
    (hhour : 0 ≤ ctx.dateAndTime.tm_hour ∧ ctx.dateAndTime.tm_hour < 24)
    (hrh : 0 ≤ ctx.config.DailyHour ∧ ctx.config.DailyHour < 24)
    (hrd : 0 ≤ ctx.config.WeeklyDay ∧ ctx.config.WeeklyDay < 7) :
    (entries.ResetInterval = .MAP_DIFFICULTY_RESET_DAILY →
      GetNextResetTime ctx entries =
        (if ctx.dateAndTime.tm_hour < ctx.config.DailyHour
         then ctx.dateAndTime.tm_mday
         else ctx.dateAndTime.tm_mday + 1) * 86400 +
          ctx.config.DailyHour * 3600) ∧
    (entries.ResetInterval = .MAP_DIFFICULTY_RESET_WEEKLY →
      (GetNextResetTime ctx entries / 86400) % 7 = ctx.config.WeeklyDay ∧
      GetNextResetTime ctx entries % 86400 = ctx.config.DailyHour * 3600 ∧
      mktime ctx.dateAndTime < GetNextResetTime ctx entries ∧
      GetNextResetTime ctx entries ≤ mktime ctx.dateAndTime + 7 * 86400 ∧
      (ctx.dateAndTime.tm_wday = ctx.config.WeeklyDay ∧
          ctx.config.DailyHour ≤ ctx.dateAndTime.tm_hour →
        GetNextResetTime ctx entries =
          (ctx.dateAndTime.tm_mday + 7) * 86400 + ctx.config.DailyHour * 3600)) ∧
    GetNextResetTime ctx entries % 3600 = 0 := by
  obtain ⟨t, cfg⟩ := ctx
  obtain ⟨ts, tmin, th, td⟩ := t
  obtain ⟨rh, rd⟩ := cfg
  simp only [GetNextResetTime, mktime, tm.tm_wday] at *
  refine ⟨?_, ?_, ?_⟩
  · intro h
    rw [h]
    simp only []
    split <;> split <;> (try dsimp only) <;> omega
  · intro h
    rw [h]
    simp only []
    split <;> refine ⟨?_, ?_, ?_, ?_, ?_⟩ <;> (try dsimp only) <;> omega
  · rcases entries.ResetInterval with _ | _ | _ <;> simp only [] <;>
      (try split) <;> (try dsimp only) <;> omega

/-- C4 witness: Monday noon with reset Tuesday 09:00 yields a result on the
configured weekday. -/
theorem getNextResetTime_spec_witness :
    (GetNextResetTime testCtx testEntriesFlex / 86400) % 7 = 2 := by
  have h := (getNextResetTime_spec testCtx testEntriesFlex (by decide) (by decide)
    (by decide) (by decide) (by decide)).2.1 rfl
  exact h.1

/-- C5: a binding that is expired when `UpdateInstanceLockForPlayer` applies
an update to it must be extended (otherwise the update asserts), and on
success the binding's `expiryTime` becomes the next reset time and the
extension flag is cleared. -/
theorem updateInstanceLock_resurrection_spec (st : MgrState) (ctx : WorldCtx)
    (now : Int) (playerGuid : Nat) (entries : MapDb2Entries)
    (updateEvent : InstanceLockUpdateEvent) (st1 : MgrState) (b : InstanceLock)
    (st' : MgrState) (lock' : InstanceLock) (stmts : List Stmt)
    (hloc : lockUpdateLocate st now playerGuid entries.GetKey = (st1, some b))
    (hexp : b.IsExpired now = true)
    (hupd : UpdateInstanceLockForPlayer st ctx now playerGuid entries
      updateEvent = some (st', lock', stmts)) :
    b.extended = true ∧
    lock'.expiryTime = GetNextResetTime ctx entries ∧
    lock'.extended = false := by
  have hobt : lockUpdateObtain st ctx now playerGuid entries updateEvent = none ∨
      lockUpdateObtain st ctx now playerGuid entries updateEvent =
        some (st1, { b with instanceId := updateEvent.InstanceId }) := by
    unfold lockUpdateObtain
    rw [hloc]
    dsimp only
    split
    · split
      · exact Or.inl rfl
      · split
        · exact Or.inl rfl
        · exact Or.inr rfl
    · exact Or.inr rfl
  have hA : ∀ l : InstanceLock, l = { b with instanceId := updateEvent.InstanceId } →
      (match resurrectIfExpired ctx entries now (applyUpdateEvent entries updateEvent l) with
        | none => none
        | some lock2 =>
            some (writeThroughSharedData
              { st1 with instanceLocksByPlayer :=
                  insertLock st1.instanceLocksByPlayer playerGuid entries.GetKey lock2 }
              entries updateEvent lock2, lock2,
              lockUpdateStatements playerGuid entries lock2)) =
        some (st', lock', stmts) →
      b.extended = true ∧
      lock'.expiryTime = GetNextResetTime ctx entries ∧ lock'.extended = false := by
    intro l hl hm
    have hexp1 : (applyUpdateEvent entries updateEvent l).IsExpired now = true := by
      unfold InstanceLock.IsExpired at hexp ⊢
      rw [applyUpdateEvent_expiryTime, hl]
      exact hexp
    rw [resurrectIfExpired_of_expired ctx entries now _ hexp1] at hm
    have hextl : (applyUpdateEvent entries updateEvent l).extended = b.extended := by
      rw [applyUpdateEvent_extended, hl]
    cases hbe : b.extended with
    | false =>
        rw [hbe] at hextl
        rw [hextl] at hm
        simp at hm
    | true =>
        rw [hbe] at hextl
        rw [hextl] at hm
        simp only [if_true, Option.some.injEq, Prod.mk.injEq] at hm
        obtain ⟨-, h2, -⟩ := hm
        exact ⟨rfl, by rw [← h2], by rw [← h2]⟩
  unfold UpdateInstanceLockForPlayer at hupd
  rcases hobt with h | h
  · rw [h] at hupd
    simp at hupd
  · rw [h] at hupd
    dsimp only at hupd
    exact hA _ rfl hupd

/-- C5 witness: an extended, expired permanent is resurrected by a concrete
update (flag cleared, expiry refreshed to the next reset time). -/
theorem updateInstanceLock_resurrection_spec_witness :
    (UpdateInstanceLockForPlayer testState3 testCtx 20 1 testEntriesFlex
        testEvent).map (fun p => (p.2.1.extended, p.2.1.expiryTime)) =
      some (false, GetNextResetTime testCtx testEntriesFlex) := by
  have hs : (UpdateInstanceLockForPlayer testState3 testCtx 20 1 testEntriesFlex
      testEvent).isSome = true := by decide
  rcases hupd : UpdateInstanceLockForPlayer testState3 testCtx 20 1
    testEntriesFlex testEvent with _ | ⟨st', lock', stmts⟩
  · rw [hupd] at hs
    simp at hs
  · have h := updateInstanceLock_resurrection_spec testState3 testCtx 20 1
      testEntriesFlex testEvent testState3 testExtendedExpiredLock st' lock'
      stmts rfl (by decide) hupd
    simp [h.2.1, h.2.2]

/-- C6 counterexample: `Unload` does not clear the temporary store — a
temporary binding present before `Unload` is still there afterwards, so the
claim that both stores are empty after `Unload()` fails. -/
theorem unload_temporary_counterexample :
    (Unload testState2).1.temporaryInstanceLocksByPlayer 1 (100, 7) =
      some testTempLock := by
  rfl

/-- C6 (amended): after `Unload()` the permanent store and the shared-record
registry are empty, no shared-delete statement is emitted during teardown
(the `_unloading` flag is set before the stores are cleared), and the
temporary store is left untouched. -/
theorem unload_spec (st : MgrState) :
    (Unload st).2 = [] ∧
    (Unload st).1.instanceLocksByPlayer = (fun _ _ => none) ∧
    (Unload st).1.instanceLockDataById = (fun _ => none) ∧
    (Unload st).1.unloading = true ∧
    (Unload st).1.temporaryInstanceLocksByPlayer =
      st.temporaryInstanceLocksByPlayer := by
  unfold Unload
  dsimp only
  rw [destroyAllShared_of_unloading { st with unloading := true } rfl]
  exact ⟨rfl, rfl, rfl, rfl, rfl⟩

/-- C7: destroying a shared record (whose instance id has been assigned,
as it is for records released by permanent bindings) while not unloading
erases the registry's weak handle for that id and emits exactly one
`DELETE FROM instance2` statement; while unloading, the hook performs no
registry mutation and emits nothing. -/
theorem onSharedInstanceLockDataDelete_spec (st : MgrState)
    (d : SharedInstanceLockData) (hid : d.InstanceId ≠ 0) :
    (st.unloading = false →
      destroySharedInstanceLockData st d =
        ({ st with instanceLockDataById := eraseLockData st.instanceLockDataById d.InstanceId },
         [Stmt.deleteInstance2 d.InstanceId])) ∧
    (st.unloading = true → destroySharedInstanceLockData st d = (st, [])) := by
  constructor
  · intro hu
    unfold destroySharedInstanceLockData OnSharedInstanceLockDataDelete
    rw [if_pos hid, hu]
    rfl
  · intro hu
    unfold destroySharedInstanceLockData OnSharedInstanceLockDataDelete
    rw [if_pos hid, hu]
    rfl

/-- C7 witness: destroying a record with instance id 5 outside unloading
emits exactly its shared-table delete. -/
theorem onSharedInstanceLockDataDelete_spec_witness :
    (destroySharedInstanceLockData emptyMgrState testSharedRec).2 =
      [Stmt.deleteInstance2 5] := by
  have h := (onSharedInstanceLockDataDelete_spec emptyMgrState testSharedRec
    (by decide)).1 rfl
  rw [h]
  rfl

/-- C8: `CreateInstanceLockForNewInstance` returns `none` and changes
nothing when the difficulty has no reset schedule; otherwise it returns a
binding with `instanceId = 0`, expiry at the next reset time, `extended`
false, empty data and zero mask, stores it in the temporary slot for
`(mapId, lockId)` (replacing any previous temporary), and for an
instance-bound dungeon registers a fresh shared record under the passed
instance id. -/
theorem createInstanceLock_spec (st : MgrState) (ctx : WorldCtx)
    (playerGuid : Nat) (entries : MapDb2Entries) (instanceId : Nat) :
    (entries.HasResetSchedule = false →
      CreateInstanceLockForNewInstance st ctx playerGuid entries instanceId =
        (st, none)) ∧
    (entries.HasResetSchedule = true →
      (CreateInstanceLockForNewInstance st ctx playerGuid entries instanceId).2 =
        some { mapId := entries.MapID, difficultyId := entries.DifficultyID,
               instanceId := 0, expiryTime := GetNextResetTime ctx entries,
               extended := false, sharedLock := entries.IsInstanceIdBound,
               data := { Data := "", CompletedEncountersMask := 0,
                         EntranceWorldSafeLocId := 0 } } ∧
      (CreateInstanceLockForNewInstance st ctx playerGuid entries
            instanceId).1.temporaryInstanceLocksByPlayer playerGuid entries.GetKey =
        (CreateInstanceLockForNewInstance st ctx playerGuid entries instanceId).2 ∧
      (entries.IsInstanceIdBound = true →
        (CreateInstanceLockForNewInstance st ctx playerGuid entries
            instanceId).1.instanceLockDataById instanceId =
          some { Data := "", CompletedEncountersMask := 0,
                 EntranceWorldSafeLocId := 0, InstanceId := 0 })) := by
  constructor
  · intro h
    unfold CreateInstanceLockForNewInstance
    simp [h]
  · intro h
    unfold CreateInstanceLockForNewInstance
    rw [h]
    rw [if_neg (by simp)]
    dsimp only
    refine ⟨rfl, ?_, ?_⟩
    · split <;> simp [insertLock]
    · intro hib
      rw [if_pos hib]
      simp [insertLockData]

/-- C8 witness: creating a lock for an instance-bound dungeon registers the
fresh shared record under the passed instance id. -/
theorem createInstanceLock_spec_witness :
    (CreateInstanceLockForNewInstance emptyMgrState testCtx 1 testEntriesBound
        42).1.instanceLockDataById 42 =
      some { Data := "", CompletedEncountersMask := 0,
             EntranceWorldSafeLocId := 0, InstanceId := 0 } := by
  have h := (createInstanceLock_spec emptyMgrState testCtx 1 testEntriesBound
    42).2 rfl
  exact h.2.2 rfl

/-- C9: during `Load`, an instance-bound per-player row with no matching
shared record produces no binding and emits the orphan-row delete (an error
is also logged), and loading continues with the remaining rows; a row with
a matching record produces a permanent binding aliasing that record, whose
weak handle is registered with the manager. -/
theorem load_orphanRow_spec (catalog : Nat → Nat → MapDb2Entries)
    (acc : LoadAcc) (row : CharacterInstanceLockRow) :
    ((catalog row.mapId row.difficulty).IsInstanceIdBound = true →
      acc.idx row.instanceId = none →
      loadPlayerRow catalog acc row =
        { acc with stmts := acc.stmts ++
            [Stmt.deleteCharacterInstanceLockByInstance row.instanceId] }) ∧
    (∀ sharedData,
      (catalog row.mapId row.difficulty).IsInstanceIdBound = true →
      acc.idx row.instanceId = some sharedData →
      (loadPlayerRow catalog acc row).st.instanceLocksByPlayer row.guid
          (row.mapId, row.lockId) =
        some { mapId := row.mapId, difficultyId := row.difficulty,
               instanceId := row.instanceId, expiryTime := row.expiryTime,
               extended := row.extended, sharedLock := true,
               data := { Data := row.data,
                         CompletedEncountersMask := row.completedEncountersMask,
                         EntranceWorldSafeLocId :=
                           sharedData.EntranceWorldSafeLocId } } ∧
      (loadPlayerRow catalog acc row).st.instanceLockDataById row.instanceId =
        some { sharedData with
                 Data := row.data,
                 CompletedEncountersMask := row.completedEncountersMask } ∧
      (loadPlayerRow catalog acc row).stmts = acc.stmts) ∧
    (∀ acc2 r rows, loadPlayerRows catalog acc2 (r :: rows) =
      loadPlayerRows catalog (loadPlayerRow catalog acc2 r) rows) := by
  refine ⟨?_, ?_, ?_⟩
  · intro hb hidx
    unfold loadPlayerRow
    rw [if_pos hb, hidx]
  · intro sharedData hb hidx
    unfold loadPlayerRow
    rw [if_pos hb, hidx]
    dsimp only
    refine ⟨?_, ?_, rfl⟩
    · simp [insertLock]
    · simp [insertLockData]
  · intro acc2 r rows
    rfl

/-- C9 witness: an orphaned instance-bound row yields exactly the orphan-row
delete statement. -/
theorem load_orphanRow_spec_witness :
    (loadPlayerRow (fun _ _ => testEntriesBound) testLoadAcc testRow).stmts =
      [Stmt.deleteCharacterInstanceLockByInstance 9] := by
  have h := (load_orphanRow_spec (fun _ _ => testEntriesBound) testLoadAcc
    testRow).1 rfl rfl
  rw [h]
  rfl

/-- C10: destroying a shared record whose `InstanceId` is still 0 (the
state of a record freshly created by `CreateInstanceLockForNewInstance`
before promotion assigns it) invokes no deletion hook even outside the
unloading state: no statement is emitted and the state — including the
registry entry registered under the new instance's id — is unchanged. -/
theorem sharedDataZeroId_spec (st : MgrState) (d : SharedInstanceLockData)
    (hid : d.InstanceId = 0) (_hu : st.unloading = false) :
    destroySharedInstanceLockData st d = (st, []) := by
  unfold destroySharedInstanceLockData
  simp [hid]

/-- C10 witness: destroying a fresh zero-id record outside unloading is a
no-op. -/
theorem sharedDataZeroId_spec_witness :
    destroySharedInstanceLockData testState2 testFreshSharedRec =
      (testState2, []) := by
  exact sharedDataZeroId_spec testState2 testFreshSharedRec rfl rfl
